import Mathlib

/-!
Shallow embedding of the watermark rendering core of the
Image_Watermarking_Tool repository (src/watermark_rendering.py,
src/data_manager.py, src/ui_components.py).

Machine model:
- Python ints are unbounded and are modelled as ℤ (ℕ is used for
  quantities that are nonnegative by construction, such as pixel
  channel values and raster sizes).
- Python float arithmetic on the small quantities involved is modelled
  exactly over ℚ; Python int() truncation toward zero is pyInt.
- External PIL primitives (resampled pixel content of resize, the
  rotate operation, text measurement under a resolved font, and the
  glyph coverage mask of text drawing) are parameters of the
  embedding, bundled in PILOps; the repository code fixes only the
  sizes and arguments it hands to them.  Font resolution
  (watermark_rendering.py lines 49-57) never fails and only selects
  which font the external measurement and rasterization use, so it is
  folded into the measureText and coverage parameters.
-/

/-- RGBA pixel; channel values lie in [0, 255] for real PIL data. -/
structure RGBA where
  r : ℕ
  g : ℕ
  b : ℕ
  a : ℕ

/-- The fully transparent pixel (0, 0, 0, 0). -/
def transparent : RGBA := ⟨0, 0, 0, 0⟩

/-- RGBA raster image: a size plus pixel content. -/
structure Img where
  width : ℕ
  height : ℕ
  pix : ℕ → ℕ → RGBA

/-- Python int() applied to a float value: truncation toward zero. -/
def pyInt (q : ℚ) : ℤ := if q < 0 then ⌈q⌉ else ⌊q⌋

/-- The WatermarkSettings dataclass (src/data_manager.py lines 5-16),
with its field defaults. -/
structure WatermarkSettings where
  wm_type : String := "text"
  text : String := "Sample Watermark"
  text_color : ℕ × ℕ × ℕ × ℕ := (255, 255, 255, 200)
  font_path : Option String := none
  font_size : ℤ := 36
  size_percent : ℤ := 20
  rotation : ℤ := 0
  anchor_ratio : ℚ × ℚ := (1/2, 1/2)
  opacity : ℤ := 50

/-- The default-constructed settings value. -/
def defaultSettings : WatermarkSettings := {}

/-- External PIL operations used by the renderers.  resizePix gives the
resampled pixel content of Image.resize (source image, new width, new
height, x, y); rotate is Image.rotate with expand=True; measureText is
the text bounding-box measurement under the resolved font (text, font
path, font size); coverage is the antialiased glyph mask in [0, 255]
at a pixel relative to the text origin. -/
structure PILOps where
  resizePix : Img → ℕ → ℕ → ℕ → ℕ → RGBA
  rotate : Img → ℤ → Img
  measureText : String → Option String → ℤ → ℤ × ℤ
  coverage : String → Option String → ℤ → ℕ → ℕ → ℕ

/-- PIL Image.resize: the result has exactly the requested size; the
pixel content comes from the external resampler (LANCZOS in the
source). -/
def Img.resize (ops : PILOps) (img : Img) (w h : ℕ) : Img :=
  ⟨w, h, ops.resizePix img w h⟩

/-- The shared scaling target (watermark_rendering.py lines 74 and
104): target_w = max(1, int(bg_w * (size_percent / 100.0))). -/
def targetWidth (bg_w : ℕ) (size_percent : ℤ) : ℤ :=
  max 1 (pyInt ((bg_w : ℚ) * ((size_percent : ℚ) / 100)))

/-- The zero-width guard on the measured text size
(watermark_rendering.py lines 29-30): if text_w == 0 then both
dimensions are replaced by 1. -/
def measureGuard (m : ℤ × ℤ) : ℤ × ℤ := if m.1 = 0 then (1, 1) else m

/-- The text fill alpha (watermark_rendering.py line 39):
a = int(a * (opacity / 100.0)). -/
def textAlpha (a : ℕ) (opacity : ℤ) : ℤ :=
  pyInt ((a : ℚ) * ((opacity : ℚ) / 100))

/-- The fixed padding around the rasterized text
(watermark_rendering.py line 33). -/
def padding : ℕ := 20

/-- watermark_rendering.py lines 33-40: a transparent canvas of the
measured size plus padding on each side; draw.text at
(padding, padding) with fill (r, g, b, textAlpha).  A drawn pixel
blends the fill into the transparent canvas by the glyph coverage mask
m, so channel value c contributes c * m / 255. -/
def TextWatermarkRenderer.textImage (ops : PILOps) (s : WatermarkSettings)
    (text_w text_h : ℤ) : Img :=
  { width := (text_w + 2 * (padding : ℤ)).toNat
    height := (text_h + 2 * (padding : ℤ)).toNat
    pix := fun x y =>
      if padding ≤ x ∧ padding ≤ y then
        let m := ops.coverage s.text s.font_path s.font_size (x - padding) (y - padding)
        ⟨s.text_color.1 * m / 255, s.text_color.2.1 * m / 255,
         s.text_color.2.2.1 * m / 255,
         (textAlpha s.text_color.2.2.2 s.opacity).toNat * m / 255⟩
      else transparent }

/-- TextWatermarkRenderer._scale_image (watermark_rendering.py lines
70-78), with the leading underscore dropped from the name. -/
def TextWatermarkRenderer.scale_image (ops : PILOps) (img : Img) (bg : ℕ × ℕ)
    (size_percent : ℤ) (text_w : ℤ) (pad : ℕ) : Img :=
  let target_w : ℤ := targetWidth bg.1 size_percent
  let scale : ℚ := (target_w : ℚ) / (text_w : ℚ)
  let new_w : ℤ := max 1 (pyInt (((text_w : ℚ) + (pad : ℚ) * 2) * scale))
  let new_h : ℤ := max 1 (pyInt ((img.height : ℚ) * scale))
  Img.resize ops img new_w.toNat new_h.toNat

/-- watermark_rendering.py lines 20-43 of TextWatermarkRenderer.render:
the sprite as built before the conditional rotation step. -/
def TextWatermarkRenderer.preSprite (ops : PILOps) (bg : ℕ × ℕ)
    (s : WatermarkSettings) : Img :=
  let m := measureGuard (ops.measureText s.text s.font_path s.font_size)
  let txt_img := TextWatermarkRenderer.textImage ops s m.1 m.2
  TextWatermarkRenderer.scale_image ops txt_img bg s.size_percent m.1 padding

/-- TextWatermarkRenderer.render (watermark_rendering.py lines 20-47):
build the sprite, then rotate only when rotation % 360 is nonzero. -/
def TextWatermarkRenderer.render (ops : PILOps) (bg : ℕ × ℕ)
    (s : WatermarkSettings) : Img :=
  let txt_img := TextWatermarkRenderer.preSprite ops bg s
  if s.rotation % 360 ≠ 0 then ops.rotate txt_img s.rotation else txt_img

/-- ImageEnhance.Brightness on the alpha band
(watermark_rendering.py lines 112-113): each alpha value is scaled by
opacity / 100 (blend with a black degenerate image). -/
def enhanceAlpha (p : ℕ) (opacity : ℤ) : ℕ :=
  (⌊(p : ℚ) * ((opacity : ℚ) / 100)⌋).toNat

/-- watermark_rendering.py lines 100-114: the image-watermark sprite
built from a present asset, before the conditional rotation step.
The asset is copied first (line 100); in this pure embedding the copy
is the value wm0 itself. -/
def ImageWatermarkRenderer.someSprite (ops : PILOps) (wm0 : Img) (bg : ℕ × ℕ)
    (s : WatermarkSettings) : Img :=
  let target_w : ℤ := targetWidth bg.1 s.size_percent
  let scale : ℚ := (target_w : ℚ) / (wm0.width : ℚ)
  let new_w : ℤ := max 1 (pyInt ((wm0.width : ℚ) * scale))
  let new_h : ℤ := max 1 (pyInt ((wm0.height : ℚ) * scale))
  let wm := Img.resize ops wm0 new_w.toNat new_h.toNat
  if s.opacity < 100 then
    { width := wm.width, height := wm.height
      pix := fun x y =>
        let p := wm.pix x y
        ⟨p.r, p.g, p.b, enhanceAlpha p.a s.opacity⟩ }
  else wm

/-- The image-watermark sprite before the conditional rotation step,
including the missing-asset early return of line 97-98. -/
def ImageWatermarkRenderer.preSprite (ops : PILOps) (st : Option Img)
    (bg : ℕ × ℕ) (s : WatermarkSettings) : Img :=
  match st with
  | none => ⟨1, 1, fun _ _ => transparent⟩
  | some wm0 => ImageWatermarkRenderer.someSprite ops wm0 bg s

/-- ImageWatermarkRenderer.render (watermark_rendering.py lines
95-120): early 1x1 transparent return when no asset is set, else
scale, apply opacity, rotate only when rotation % 360 is nonzero.
st is the watermark_image field of the renderer. -/
def ImageWatermarkRenderer.render (ops : PILOps) (st : Option Img)
    (bg : ℕ × ℕ) (s : WatermarkSettings) : Img :=
  match st with
  | none => ⟨1, 1, fun _ _ => transparent⟩
  | some wm0 =>
    let wm := ImageWatermarkRenderer.someSprite ops wm0 bg s
    if s.rotation % 360 ≠ 0 then ops.rotate wm s.rotation else wm

/-- ImageWatermarkRenderer.set_watermark_image (lines 91-93): the new
value of the watermark_image field.  convert("RGBA") is the identity
on the already-RGBA images of this model (PIL returns a fresh copy,
which a pure value represents directly). -/
def ImageWatermarkRenderer.set_watermark_image (image : Img) : Option Img :=
  some image

/-- ImageWatermarkRenderer.render with the watermark_image field
threaded explicitly as state: the method reads the field once at line
100 (into a copy) and contains no assignment to it, so the field value
after the call is the field value before the call. -/
def ImageWatermarkRenderer.renderS (ops : PILOps) (st : Option Img)
    (bg : ℕ × ℕ) (s : WatermarkSettings) : Img × Option Img :=
  (ImageWatermarkRenderer.render ops st bg s, st)

/-- Anchor-ratio to pixel-center conversion used by create_overlay
(watermark_rendering.py lines 146-147):
cx = int(ratio.x * width), cy = int(ratio.y * height). -/
def placementCenter (r : ℚ × ℚ) (size : ℕ × ℕ) : ℤ × ℤ :=
  (pyInt (r.1 * (size.1 : ℚ)), pyInt (r.2 * (size.2 : ℚ)))

/-- Pixel to anchor-ratio conversion used by the drag handler
CanvasController._on_motion (src/ui_components.py lines 84-90):
subtract the container origin, clamp each axis to [0, dimension] via
max(0, min(coordinate, dimension)), divide by the dimension. -/
def ratioFromPixel (p : ℚ × ℚ) (origin : ℤ × ℤ) (size : ℤ × ℤ) : ℚ × ℚ :=
  (max 0 (min (p.1 - (origin.1 : ℚ)) ((size.1 : ℚ))) / (size.1 : ℚ),
   max 0 (min (p.2 - (origin.2 : ℚ)) ((size.2 : ℚ))) / (size.2 : ℚ))

/-- One channel of PIL paste with a mask value m in [0, 255]:
destination kept where m = 0, source taken where m = 255, linear blend
in between. -/
def blendChan (d s m : ℕ) : ℕ := (d * (255 - m) + s * m) / 255

/-- Full-pixel blend by a mask value. -/
def blendPix (d s : RGBA) (m : ℕ) : RGBA :=
  ⟨blendChan d.r s.r m, blendChan d.g s.g m, blendChan d.b s.b m,
   blendChan d.a s.a m⟩

/-- PIL Image.paste of sprite onto base at (tlx, tly) using the sprite
itself as mask (its alpha band), as in watermark_rendering.py line
151; regions outside the base are silently clipped. -/
def Img.pasteMask (base sprite : Img) (tlx tly : ℤ) : Img :=
  { width := base.width, height := base.height
    pix := fun x y =>
      if tlx ≤ (x : ℤ) ∧ (x : ℤ) < tlx + (sprite.width : ℤ) ∧
         tly ≤ (y : ℤ) ∧ (y : ℤ) < tly + (sprite.height : ℤ) then
        let sp := sprite.pix ((x : ℤ) - tlx).toNat ((y : ℤ) - tly).toNat
        blendPix (base.pix x y) sp sp.a
      else base.pix x y }

/-- WatermarkProcessor.create_watermark (watermark_rendering.py lines
130-135): dispatch on wm_type; st is the image-renderer asset. -/
def WatermarkProcessor.create_watermark (ops : PILOps) (st : Option Img)
    (bg : ℕ × ℕ) (s : WatermarkSettings) : Img :=
  if s.wm_type = "text" then TextWatermarkRenderer.render ops bg s
  else ImageWatermarkRenderer.render ops st bg s

/-- WatermarkProcessor.create_overlay (watermark_rendering.py lines
137-152): transparent canvas of the original size, watermark rendered
at that size, centered at the anchor, pasted with its own alpha as
mask. -/
def WatermarkProcessor.create_overlay (ops : PILOps) (st : Option Img)
    (original_size : ℕ × ℕ) (s : WatermarkSettings) : Img :=
  let overlay : Img := ⟨original_size.1, original_size.2, fun _ _ => transparent⟩
  let watermark := WatermarkProcessor.create_watermark ops st original_size s
  let c := placementCenter s.anchor_ratio original_size
  let top_left_x := pyInt ((c.1 : ℚ) - (watermark.width : ℚ) / 2)
  let top_left_y := pyInt ((c.2 : ℚ) - (watermark.height : ℚ) / 2)
  Img.pasteMask overlay watermark top_left_x top_left_y

/-- The nine position presets of UIController._on_position_preset
(src/ui_components.py lines 279-283). -/
def positionPresets : List (String × (ℚ × ℚ)) :=
  [("top-left", (8/100, 8/100)), ("top-center", (1/2, 8/100)),
   ("top-right", (92/100, 8/100)), ("center-left", (8/100, 1/2)),
   ("center", (1/2, 1/2)), ("center-right", (92/100, 1/2)),
   ("bottom-left", (8/100, 92/100)), ("bottom-center", (1/2, 92/100)),
   ("bottom-right", (92/100, 92/100))]

/-- ImageManager state (src/data_manager.py lines 19-27). -/
structure ImageManager where
  canvas_width : ℕ := 900
  canvas_height : ℕ := 600
  original_image : Option Img := none
  display_image : Option Img := none
  display_photo : Option Img := none

/-- PIL Image.thumbnail size computation: fit inside the box
preserving aspect ratio, never enlarging, at least 1 px per axis. -/
def thumbnailFit (w h cw ch : ℕ) : ℕ × ℕ :=
  if w ≤ cw ∧ h ≤ ch then (w, h)
  else
    let ratio : ℚ := min ((cw : ℚ) / (w : ℚ)) ((ch : ℚ) / (h : ℚ))
    (max 1 (round ((w : ℚ) * ratio)).toNat, max 1 (round ((h : ℚ) * ratio)).toNat)

/-- ImageManager._update_display_image (src/data_manager.py lines
40-48), with the leading underscore dropped: recompute the preview
copy and its photo from the original. -/
def ImageManager.update_display_image (ops : PILOps) (st : ImageManager) :
    ImageManager :=
  match st.original_image with
  | none => st
  | some img =>
    let sz := thumbnailFit img.width img.height st.canvas_width st.canvas_height
    let disp := Img.resize ops img sz.1 sz.2
    { st with display_image := some disp, display_photo := some disp }

/-- ImageManager.load_image (src/data_manager.py lines 29-38).  The
decoded argument is the outcome of Image.open(path).convert("RGBA"):
none models an open or decode failure, in which case the except branch
returns False with no field assignment having run. -/
def ImageManager.load_image (ops : PILOps) (st : ImageManager)
    (decoded : Option Img) : ImageManager × Bool :=
  match decoded with
  | none => (st, false)
  | some img =>
    let st1 := { st with original_image := some img }
    (ImageManager.update_display_image ops st1, true)

/-- Pointwise alpha domination between images: equal sizes, equal
color channels, and the alpha of the first never above the alpha of
the second at any pixel. -/
def Img.alphaLE (A B : Img) : Prop :=
  A.width = B.width ∧ A.height = B.height ∧
  ∀ x y, ((A.pix x y).r = (B.pix x y).r ∧ (A.pix x y).g = (B.pix x y).g ∧
    (A.pix x y).b = (B.pix x y).b ∧ (A.pix x y).a ≤ (B.pix x y).a)

/-- A concrete instantiation of the external operations, used to
evaluate the development at specific inputs: a pointwise resampler, an
identity rotation, a font under which the measured text box is
100 x 30, and full glyph coverage. -/
def sampleOps : PILOps :=
  { resizePix := fun img _ _ x y => img.pix x y
    rotate := fun img _ => img
    measureText := fun _ _ _ => (100, 30)
    coverage := fun _ _ _ _ _ => 255 }

/-- A concrete 50 x 40 watermark asset. -/
def sampleWm : Img := ⟨50, 40, fun _ _ => ⟨10, 20, 30, 240⟩⟩

/-! ### Helper lemmas -/

theorem pyInt_of_nonneg (q : ℚ) (h : 0 ≤ q) : pyInt q = ⌊q⌋ := by
  unfold pyInt
  rw [if_neg (not_lt.mpr h)]

theorem pyInt_intCast (n : ℤ) : pyInt ((n : ℚ)) = n := by
  unfold pyInt
  split
  · exact Int.ceil_intCast n
  · exact Int.floor_intCast n

/-! ### C7 -/

/-- C7: if loading a background image fails (the file cannot be opened
or decoded, modelled by a none decode outcome), load_image reports
failure (False) and the ImageManager state, including the previously
loaded original image and its derived preview copy, is exactly the
state before the call. -/
theorem C7_load_failure_keeps_state (ops : PILOps) (st : ImageManager) :
    ImageManager.load_image ops st none = (st, false) := rfl

/-! ### C8 -/

/-- C8: for every settings value, rendering with rotation 0 and with
rotation 360 skips the rotation step (the effective rotation value mod
360 is zero), so the returned sprite is exactly the unrotated
pre-rotation sprite, identical in size and pixel content, for both the
text renderer and the image renderer. -/
theorem C8_rotation_zero_and_360_noop (ops : PILOps) (st : Option Img)
    (bg : ℕ × ℕ) (s : WatermarkSettings) :
    TextWatermarkRenderer.render ops bg { s with rotation := 0 } =
      TextWatermarkRenderer.preSprite ops bg s ∧
    TextWatermarkRenderer.render ops bg { s with rotation := 360 } =
      TextWatermarkRenderer.preSprite ops bg s ∧
    ImageWatermarkRenderer.render ops st bg { s with rotation := 0 } =
      ImageWatermarkRenderer.preSprite ops st bg s ∧
    ImageWatermarkRenderer.render ops st bg { s with rotation := 360 } =
      ImageWatermarkRenderer.preSprite ops st bg s := by
  cases st <;> exact ⟨rfl, rfl, rfl, rfl⟩

/-! ### C10 -/

/-- C10: rendering never changes the stored watermark asset.  After
set_watermark_image the renderS call (render with the watermark_image
field threaded as explicit state) returns the field unchanged, bit for
bit, and a later render over the post-call state produces the same
sprite as a render over the original state. -/
theorem C10_render_preserves_asset (ops : PILOps) (image : Img)
    (bg bg2 : ℕ × ℕ) (s s2 : WatermarkSettings) :
    (ImageWatermarkRenderer.renderS ops
        (ImageWatermarkRenderer.set_watermark_image image) bg s).2 =
      ImageWatermarkRenderer.set_watermark_image image ∧
    (ImageWatermarkRenderer.renderS ops
        ((ImageWatermarkRenderer.renderS ops
            (ImageWatermarkRenderer.set_watermark_image image) bg2 s2).2)
        bg s).1 =
      (ImageWatermarkRenderer.renderS ops
        (ImageWatermarkRenderer.set_watermark_image image) bg s).1 :=
  ⟨rfl, rfl⟩

/-! ### C2 -/

/-- C2 counterexample: a measured bounding box of width 5 and height 0
is not replaced by the 1 x 1 substitute, contrary to the claim that a
zero height triggers the substitution; the guard at
watermark_rendering.py lines 29-30 tests only the width. -/
theorem C2_counterexample :
    measureGuard (5, 0) = (5, 0) ∧ measureGuard (5, 0) ≠ (1, 1) := by
  decide

/-- C2 amended: the 1 x 1 substitution happens exactly when the
measured width is zero (which covers empty text); a zero-height,
positive-width measurement is kept unchanged; and for every
nonnegative measured width the guarded width is at least 1 and hence
nonzero as a rational, so the downstream division of the target width
by the measured text width never divides by zero. -/
theorem C2_guard_division_safety (m : ℤ × ℤ) (hm : 0 ≤ m.1) :
    1 ≤ (measureGuard m).1 ∧
    (((measureGuard m).1 : ℚ)) ≠ 0 ∧
    (m.1 = 0 → measureGuard m = (1, 1)) ∧
    (m.1 ≠ 0 → measureGuard m = m) := by
  unfold measureGuard
  by_cases h : m.1 = 0
  · rw [if_pos h]
    refine ⟨le_refl 1, by norm_num, fun _ => rfl, fun hne => absurd h hne⟩
  · rw [if_neg h]
    have h1 : 1 ≤ m.1 := by omega
    refine ⟨h1, ?_, fun h0 => absurd h0 h, fun _ => rfl⟩
    exact_mod_cast (by omega : m.1 ≠ 0)

/-- C2 witness at the measurement (0, 7), the empty-width case. -/
theorem C2_guard_division_safety_witness :
    1 ≤ (measureGuard (0, 7)).1 ∧ (((measureGuard (0, 7)).1 : ℚ)) ≠ 0 :=
  ⟨(C2_guard_division_safety (0, 7) (by decide)).1,
   (C2_guard_division_safety (0, 7) (by decide)).2.1⟩

/-! ### C3 -/

/-- C3 counterexample: at textColor alpha 201 and opacity 51 the code
computes int(201 * 0.51) = 102, while rounding 102.51 to the nearest
integer (and clamping to [0, 255]) gives 103, so the drawn alpha is
not the claimed rounded value. -/
theorem C3_counterexample :
    textAlpha 201 51 = 102 ∧
    textAlpha 201 51 ≠ min 255 (max 0 (round ((201 : ℚ) * ((51 : ℚ) / 100)))) := by
  have h : textAlpha 201 51 = 102 := by norm_num [textAlpha, pyInt]
  have hr : round ((201 : ℚ) * ((51 : ℚ) / 100)) = 103 := by
    rw [round_eq]
    norm_num
  refine ⟨h, ?_⟩
  rw [h, hr]
  decide

/-- C3 amended: the drawn text alpha is the truncation (floor, as the
product is nonnegative) of textColor.a * opacityPercent / 100, not the
nearest-integer rounding; for every alpha in [0, 255] and opacity in
[0, 100] the result automatically lies in [0, 255] with no explicit
clamping. -/
theorem C3_alpha_truncation (a : ℕ) (opacity : ℤ) (ha : a ≤ 255)
    (h0 : 0 ≤ opacity) (h100 : opacity ≤ 100) :
    textAlpha a opacity = ⌊(a : ℚ) * ((opacity : ℚ) / 100)⌋ ∧
    0 ≤ textAlpha a opacity ∧ textAlpha a opacity ≤ 255 := by
  have hq0 : (0 : ℚ) ≤ (a : ℚ) * ((opacity : ℚ) / 100) := by
    have h1 : (0 : ℚ) ≤ (a : ℚ) := by positivity
    have h2 : (0 : ℚ) ≤ (opacity : ℚ) / 100 := by
      have : (0 : ℚ) ≤ (opacity : ℚ) := by exact_mod_cast h0
      positivity
    exact mul_nonneg h1 h2
  have heq : textAlpha a opacity = ⌊(a : ℚ) * ((opacity : ℚ) / 100)⌋ :=
    pyInt_of_nonneg _ hq0
  refine ⟨heq, ?_, ?_⟩
  · rw [heq]
    exact Int.floor_nonneg.mpr hq0
  · rw [heq]
    have hle : (a : ℚ) * ((opacity : ℚ) / 100) ≤ 255 := by
      have h1 : (a : ℚ) ≤ 255 := by exact_mod_cast ha
      have h2 : (opacity : ℚ) / 100 ≤ 1 := by
        have : (opacity : ℚ) ≤ 100 := by exact_mod_cast h100
        linarith
      have h3 : (0 : ℚ) ≤ (a : ℚ) := by positivity
      calc (a : ℚ) * ((opacity : ℚ) / 100) ≤ (a : ℚ) * 1 := by
            exact mul_le_mul_of_nonneg_left h2 h3
        _ ≤ 255 := by linarith
    calc ⌊(a : ℚ) * ((opacity : ℚ) / 100)⌋ ≤ ⌊(255 : ℚ)⌋ :=
          Int.floor_le_floor hle
      _ = 255 := by norm_num

/-- C3 witness at alpha 200 and opacity 50 (the settings defaults). -/
theorem C3_alpha_truncation_witness :
    0 ≤ textAlpha 200 50 ∧ textAlpha 200 50 ≤ 255 :=
  ⟨(C3_alpha_truncation 200 50 (by decide) (by decide) (by decide)).2.1,
   (C3_alpha_truncation 200 50 (by decide) (by decide) (by decide)).2.2⟩

/-! ### C5 -/

/-- C5: the anchor ratio stored in settings always has both components
in [0, 1], whatever the source: the drag handler clamps the local
pixel position per axis before dividing, so every ratio it reports is
in range; every position preset already lies inside the unit square;
and a drag whose unclamped ratio would be (1.5, -0.2) (a pixel
3/2 * width right of the container origin and 1/5 * height above it)
is stored as (1.0, 0.0). -/
theorem C5_anchor_ratio_clamped (cx cy : ℚ) (ix iy iw ih : ℤ)
    (hw : 1 ≤ iw) (hh : 1 ≤ ih) :
    (0 ≤ (ratioFromPixel (cx, cy) (ix, iy) (iw, ih)).1 ∧
     (ratioFromPixel (cx, cy) (ix, iy) (iw, ih)).1 ≤ 1 ∧
     0 ≤ (ratioFromPixel (cx, cy) (ix, iy) (iw, ih)).2 ∧
     (ratioFromPixel (cx, cy) (ix, iy) (iw, ih)).2 ≤ 1) ∧
    (∀ pr ∈ positionPresets,
      0 ≤ pr.2.1 ∧ pr.2.1 ≤ 1 ∧ 0 ≤ pr.2.2 ∧ pr.2.2 ≤ 1) ∧
    ratioFromPixel ((ix : ℚ) + (3 / 2) * (iw : ℚ), (iy : ℚ) - (1 / 5) * (ih : ℚ))
      (ix, iy) (iw, ih) = (1, 0) := by
  have hwq : (0 : ℚ) < (iw : ℚ) := by exact_mod_cast (by omega : (0 : ℤ) < iw)
  have hhq : (0 : ℚ) < (ih : ℚ) := by exact_mod_cast (by omega : (0 : ℤ) < ih)
  have key : ∀ (t d : ℚ), 0 < d →
      0 ≤ max 0 (min t d) / d ∧ max 0 (min t d) / d ≤ 1 := by
    intro t d hd
    constructor
    · exact div_nonneg (le_max_left 0 _) hd.le
    · rw [div_le_one hd]
      exact max_le hd.le (min_le_right t d)
  refine ⟨⟨(key _ _ hwq).1, (key _ _ hwq).2, (key _ _ hhq).1, (key _ _ hhq).2⟩,
    ?_, ?_⟩
  · intro pr hpr
    simp only [positionPresets, List.mem_cons, List.not_mem_nil, or_false] at hpr
    rcases hpr with h | h | h | h | h | h | h | h | h <;> subst h <;>
      refine ⟨by norm_num, by norm_num, by norm_num, by norm_num⟩
  · show (max 0 (min ((ix : ℚ) + 3 / 2 * (iw : ℚ) - (ix : ℚ)) ((iw : ℚ))) / (iw : ℚ),
         max 0 (min ((iy : ℚ) - 1 / 5 * (ih : ℚ) - (iy : ℚ)) ((ih : ℚ))) / (ih : ℚ))
        = ((1 : ℚ), (0 : ℚ))
    have e1 : (ix : ℚ) + 3 / 2 * (iw : ℚ) - (ix : ℚ) = 3 / 2 * (iw : ℚ) := by ring
    have e2 : (iy : ℚ) - 1 / 5 * (ih : ℚ) - (iy : ℚ) = -(1 / 5 * (ih : ℚ)) := by ring
    rw [e1, e2]
    have m1 : min (3 / 2 * (iw : ℚ)) ((iw : ℚ)) = (iw : ℚ) :=
      min_eq_right (by linarith)
    have m2 : min (-(1 / 5 * (ih : ℚ))) ((ih : ℚ)) = -(1 / 5 * (ih : ℚ)) :=
      min_eq_left (by linarith)
    rw [m1, m2, max_eq_right hwq.le,
      max_eq_left (by linarith : -(1 / 5 * (ih : ℚ)) ≤ 0),
      div_self (ne_of_gt hwq)]
    norm_num

/-- C5 witness at a concrete drag position and container. -/
theorem C5_anchor_ratio_clamped_witness :
    0 ≤ (ratioFromPixel (5, 5) (0, 0) (10, 10)).1 ∧
    (ratioFromPixel (5, 5) (0, 0) (10, 10)).1 ≤ 1 :=
  ⟨(C5_anchor_ratio_clamped 5 5 0 0 10 10 (by decide) (by decide)).1.1,
   (C5_anchor_ratio_clamped 5 5 0 0 10 10 (by decide) (by decide)).1.2.1⟩

/-! ### C4 -/

/-- C4 counterexample: at anchor ratio (1/2, 1/2) on a 3 x 3
background the stored pixel center is int(1.5) = 1, and converting
back gives (1/3, 1/3), which differs from (1/2, 1/2) by 1/6 on each
axis, far beyond float tolerance; the claimed exact round trip fails
because the center is truncated to integer pixels. -/
theorem C4_counterexample :
    ratioFromPixel (((placementCenter (1/2, 1/2) (3, 3)).1 : ℚ),
        ((placementCenter (1/2, 1/2) (3, 3)).2 : ℚ)) (0, 0) (3, 3) =
      (1/3, 1/3) ∧
    ¬ |(ratioFromPixel (((placementCenter (1/2, 1/2) (3, 3)).1 : ℚ),
        ((placementCenter (1/2, 1/2) (3, 3)).2 : ℚ)) (0, 0) (3, 3)).1
        - (1/2 : ℚ)| ≤ 1 / 100 := by
  have hc : placementCenter (1/2, 1/2) (3, 3) = (1, 1) := by
    unfold placementCenter
    norm_num [pyInt]
  rw [hc]
  have hr : ratioFromPixel ((((1 : ℤ), (1 : ℤ)).1 : ℚ), (((1 : ℤ), (1 : ℤ)).2 : ℚ))
      (0, 0) (3, 3) = (1/3, 1/3) := by
    show (max 0 (min ((((1 : ℤ) : ℚ)) - (((0 : ℤ) : ℚ))) ((((3 : ℤ) : ℚ)))) / (((3 : ℤ) : ℚ)),
        max 0 (min ((((1 : ℤ) : ℚ)) - (((0 : ℤ) : ℚ))) ((((3 : ℤ) : ℚ)))) / (((3 : ℤ) : ℚ)))
      = ((1/3 : ℚ), (1/3 : ℚ))
    norm_num [min_def, max_def]
  refine ⟨hr, ?_⟩
  rw [hr]
  rw [show ((1/3 : ℚ), (1/3 : ℚ)).1 - (1/2 : ℚ) = -(1/6) by norm_num]
  rw [abs_neg, abs_of_nonneg (by norm_num : (0 : ℚ) ≤ 1/6)]
  norm_num

/-- One axis of the amended round trip: the clamped division recovers
the original ratio from the truncated pixel center to within one pixel
(1 / dimension). -/
theorem clamp_floor_axis (r W : ℚ) (h0 : 0 ≤ r) (h1 : r ≤ 1) (hW : 1 ≤ W) :
    |max 0 (min ((⌊r * W⌋ : ℚ)) W) / W - r| ≤ 1 / W := by
  have hW0 : (0 : ℚ) < W := lt_of_lt_of_le one_pos hW
  have hrW0 : (0 : ℚ) ≤ r * W := mul_nonneg h0 hW0.le
  have hfl0 : (0 : ℚ) ≤ ((⌊r * W⌋ : ℤ) : ℚ) := by
    exact_mod_cast Int.floor_nonneg.mpr hrW0
  have hfl_le : ((⌊r * W⌋ : ℤ) : ℚ) ≤ W := by
    calc ((⌊r * W⌋ : ℤ) : ℚ) ≤ r * W := Int.floor_le _
      _ ≤ 1 * W := mul_le_mul_of_nonneg_right h1 hW0.le
      _ = W := one_mul W
  rw [min_eq_left hfl_le, max_eq_right hfl0]
  have hle : ((⌊r * W⌋ : ℤ) : ℚ) / W ≤ r := by
    rw [div_le_iff₀ hW0]
    exact Int.floor_le _
  rw [abs_sub_comm, abs_of_nonneg (by linarith : (0 : ℚ) ≤ r - ((⌊r * W⌋ : ℤ) : ℚ) / W)]
  rw [sub_le_iff_le_add, div_add_div_same, le_div_iff₀ hW0]
  have := Int.sub_one_lt_floor (r * W)
  linarith

/-- C4 amended: the pixel center stored by create_overlay is the
truncation int(ratio * dimension), so converting back with origin 0
recovers the anchor ratio only to within one pixel, i.e. within
1 / dimension per axis (exact when ratio * dimension is an integer),
not within float tolerance. -/
theorem C4_roundtrip_one_pixel (r : ℚ × ℚ) (w h : ℕ)
    (h1 : 0 ≤ r.1) (h2 : r.1 ≤ 1) (h3 : 0 ≤ r.2) (h4 : r.2 ≤ 1)
    (hw : 1 ≤ w) (hh : 1 ≤ h) :
    |(ratioFromPixel (((placementCenter r (w, h)).1 : ℚ),
        ((placementCenter r (w, h)).2 : ℚ)) (0, 0) (((w : ℕ) : ℤ), ((h : ℕ) : ℤ))).1
      - r.1| ≤ 1 / ((w : ℕ) : ℚ) ∧
    |(ratioFromPixel (((placementCenter r (w, h)).1 : ℚ),
        ((placementCenter r (w, h)).2 : ℚ)) (0, 0) (((w : ℕ) : ℤ), ((h : ℕ) : ℤ))).2
      - r.2| ≤ 1 / ((h : ℕ) : ℚ) := by
  have hwq : (1 : ℚ) ≤ ((w : ℕ) : ℚ) := by exact_mod_cast hw
  have hhq : (1 : ℚ) ≤ ((h : ℕ) : ℚ) := by exact_mod_cast hh
  have hpc1 : ((placementCenter r (w, h)).1 : ℚ) = ((⌊r.1 * ((w : ℕ) : ℚ)⌋ : ℤ) : ℚ) := by
    show ((pyInt (r.1 * (((w, h) : ℕ × ℕ).1 : ℚ)) : ℤ) : ℚ) = _
    rw [pyInt_of_nonneg _ (mul_nonneg h1 (by positivity))]
  have hpc2 : ((placementCenter r (w, h)).2 : ℚ) = ((⌊r.2 * ((h : ℕ) : ℚ)⌋ : ℤ) : ℚ) := by
    show ((pyInt (r.2 * (((w, h) : ℕ × ℕ).2 : ℚ)) : ℤ) : ℚ) = _
    rw [pyInt_of_nonneg _ (mul_nonneg h3 (by positivity))]
  constructor
  · show |max 0 (min (((placementCenter r (w, h)).1 : ℚ) - (((0 : ℤ) : ℚ)))
        ((((w : ℕ) : ℤ) : ℚ))) / ((((w : ℕ) : ℤ) : ℚ)) - r.1| ≤ 1 / ((w : ℕ) : ℚ)
    rw [hpc1, Int.cast_zero, sub_zero, Int.cast_natCast]
    exact clamp_floor_axis r.1 ((w : ℕ) : ℚ) h1 h2 hwq
  · show |max 0 (min (((placementCenter r (w, h)).2 : ℚ) - (((0 : ℤ) : ℚ)))
        ((((h : ℕ) : ℤ) : ℚ))) / ((((h : ℕ) : ℤ) : ℚ)) - r.2| ≤ 1 / ((h : ℕ) : ℚ)
    rw [hpc2, Int.cast_zero, sub_zero, Int.cast_natCast]
    exact clamp_floor_axis r.2 ((h : ℕ) : ℚ) h3 h4 hhq

/-- C4 witness at ratio (1/4, 3/4) on an 8 x 8 background. -/
theorem C4_roundtrip_one_pixel_witness :
    |(ratioFromPixel (((placementCenter (1/4, 3/4) (8, 8)).1 : ℚ),
        ((placementCenter (1/4, 3/4) (8, 8)).2 : ℚ)) (0, 0) (((8 : ℕ) : ℤ), ((8 : ℕ) : ℤ))).1
      - (1/4 : ℚ)| ≤ 1 / ((8 : ℕ) : ℚ) :=
  (C4_roundtrip_one_pixel (1/4, 3/4) 8 8 (by norm_num) (by norm_num)
    (by norm_num) (by norm_num) (by norm_num) (by norm_num)).1

/-! ### C6 -/

/-- Pasting a fully transparent sprite onto a fully transparent base
with the sprite as mask leaves every pixel fully transparent. -/
theorem pasteMask_transparent (base sprite : Img) (tlx tly : ℤ)
    (hb : ∀ x y, base.pix x y = transparent)
    (hs : ∀ x y, sprite.pix x y = transparent) :
    ∀ x y, (Img.pasteMask base sprite tlx tly).pix x y = transparent := by
  intro x y
  unfold Img.pasteMask
  dsimp only
  split
  · rw [hs, hb]
    rfl
  · exact hb x y

/-- C6: with no watermark asset set and the kind set to image,
create_watermark returns a 1 x 1 sprite whose every pixel is fully
transparent, and for every background size create_overlay returns a
canvas of exactly that size in which every pixel is fully
transparent. -/
theorem C6_missing_asset_transparent (ops : PILOps) (s : WatermarkSettings)
    (w h : ℕ) (hk : s.wm_type = "image") :
    ((WatermarkProcessor.create_watermark ops none (w, h) s).width = 1 ∧
     (WatermarkProcessor.create_watermark ops none (w, h) s).height = 1 ∧
     ∀ x y, (WatermarkProcessor.create_watermark ops none (w, h) s).pix x y
       = transparent) ∧
    ((WatermarkProcessor.create_overlay ops none (w, h) s).width = w ∧
     (WatermarkProcessor.create_overlay ops none (w, h) s).height = h ∧
     ∀ x y, (WatermarkProcessor.create_overlay ops none (w, h) s).pix x y
       = transparent) := by
  have hne : ¬ s.wm_type = "text" := by
    rw [hk]
    decide
  have hcw : WatermarkProcessor.create_watermark ops none (w, h) s =
      ⟨1, 1, fun _ _ => transparent⟩ := by
    unfold WatermarkProcessor.create_watermark
    rw [if_neg hne]
    rfl
  refine ⟨⟨by rw [hcw], by rw [hcw], fun x y => by rw [hcw]⟩, rfl, rfl, ?_⟩
  intro x y
  exact pasteMask_transparent _ _ _ _ (fun _ _ => rfl)
    (fun a b => by rw [hcw]) x y

/-- C6 witness at a 10 x 10 background. -/
theorem C6_missing_asset_transparent_witness :
    (WatermarkProcessor.create_watermark sampleOps none (10, 10)
        { defaultSettings with wm_type := "image" }).width = 1 ∧
    (WatermarkProcessor.create_overlay sampleOps none (10, 10)
        { defaultSettings with wm_type := "image" }).width = 10 :=
  ⟨(C6_missing_asset_transparent sampleOps
      { defaultSettings with wm_type := "image" } 10 10 rfl).1.1,
   (C6_missing_asset_transparent sampleOps
      { defaultSettings with wm_type := "image" } 10 10 rfl).2.1⟩

/-! ### C1 -/

/-- C1 counterexample: with background width 1000, sizePercent 20 (the
default), and a text measuring 100 px wide, the target width is 200
but the pre-rotation text sprite is 280 px wide, because the scale
factor 200/100 = 2 is applied to the padding-inflated 140 px canvas;
the claimed 1 px tolerance around round(W * sizePercent/100) = 200
fails by 80 px. -/
theorem C1_counterexample :
    (TextWatermarkRenderer.preSprite sampleOps (1000, 800) defaultSettings).width
      = 280 ∧
    ¬ (((TextWatermarkRenderer.preSprite sampleOps (1000, 800) defaultSettings).width : ℤ)
        - round ((1000 : ℚ) * ((20 : ℚ) / 100))).natAbs ≤ 1 := by
  have hw : (TextWatermarkRenderer.preSprite sampleOps (1000, 800) defaultSettings).width
      = 280 := by
    simp only [TextWatermarkRenderer.preSprite, TextWatermarkRenderer.scale_image,
      TextWatermarkRenderer.textImage, Img.resize, measureGuard, targetWidth,
      sampleOps, defaultSettings, padding]
    norm_num [pyInt]
    decide
  have hr : round ((1000 : ℚ) * ((20 : ℚ) / 100)) = 200 := by
    rw [round_eq]
    norm_num
  refine ⟨hw, ?_⟩
  rw [hw, hr]
  decide

/-- For x ≥ 0, max(1, int(x)) is within 1 of round(x). -/
theorem max1_floor_round_close (x : ℚ) (hx : 0 ≤ x) :
    (max 1 (pyInt x) - round x).natAbs ≤ 1 := by
  rw [pyInt_of_nonneg x hx]
  have h1 : ⌊x⌋ ≤ round x := by
    rw [round_eq]
    exact Int.floor_le_floor (by linarith)
  have h2 : round x ≤ ⌊x⌋ + 1 := by
    rw [round_eq]
    calc ⌊x + 1/2⌋ ≤ ⌊x + 1⌋ := Int.floor_le_floor (by linarith)
      _ = ⌊x⌋ + 1 := by rw [Int.floor_add_one]
  have h0 : 0 ≤ ⌊x⌋ := Int.floor_nonneg.mpr hx
  rcases le_or_lt 1 ⌊x⌋ with h | h
  · rw [max_eq_right h]
    omega
  · have hz : ⌊x⌋ = 0 := by omega
    rw [hz, max_eq_left (by omega : (0 : ℤ) ≤ 1)]
    omega

/-- The width of the image-watermark sprite before rotation, in both
opacity branches. -/
theorem ImageWatermarkRenderer.someSprite_width (ops : PILOps) (wm0 : Img)
    (bg : ℕ × ℕ) (s : WatermarkSettings) :
    (ImageWatermarkRenderer.someSprite ops wm0 bg s).width =
      (max 1 (pyInt ((wm0.width : ℚ) *
        ((targetWidth bg.1 s.size_percent : ℚ) / (wm0.width : ℚ))))).toNat := by
  unfold ImageWatermarkRenderer.someSprite
  dsimp only
  split <;> rfl

/-- The scaled text sprite is at least as wide as the target width:
the scale factor targets the bare text width but is applied to the
padded canvas. -/
theorem scale_image_width_ge (t tw : ℤ) (ht : 1 ≤ t) (htw : 1 ≤ tw) (pad : ℕ) :
    t ≤ max 1 (pyInt (((tw : ℚ) + (pad : ℚ) * 2) * ((t : ℚ) / (tw : ℚ)))) := by
  have htq : (0 : ℚ) ≤ (t : ℚ) := by exact_mod_cast (by omega : (0 : ℤ) ≤ t)
  have htwq : (0 : ℚ) < (tw : ℚ) := by exact_mod_cast (by omega : (0 : ℤ) < tw)
  have hdiv : (0 : ℚ) ≤ (t : ℚ) / (tw : ℚ) := div_nonneg htq htwq.le
  have hE : (t : ℚ) ≤ ((tw : ℚ) + (pad : ℚ) * 2) * ((t : ℚ) / (tw : ℚ)) := by
    calc (t : ℚ) = (tw : ℚ) * ((t : ℚ) / (tw : ℚ)) := by field_simp
      _ ≤ ((tw : ℚ) + (pad : ℚ) * 2) * ((t : ℚ) / (tw : ℚ)) := by
          apply mul_le_mul_of_nonneg_right _ hdiv
          have : (0 : ℚ) ≤ (pad : ℚ) := by positivity
          linarith
  have hE0 : (0 : ℚ) ≤ ((tw : ℚ) + (pad : ℚ) * 2) * ((t : ℚ) / (tw : ℚ)) := by
    linarith
  rw [pyInt_of_nonneg _ hE0]
  exact le_trans (Int.le_floor.mpr hE) (le_max_right 1 _)

/-- C1 amended: the claim holds for the image renderer, whose
pre-rotation sprite width is exactly targetWidth = max(1,
int(W * sizePercent/100)), within 1 px of round(W * sizePercent/100);
for the text renderer the scale factor targets the measured text width
but is applied to the padding-inflated canvas, so the pre-rotation
sprite width is max(1, int((textW + 2*padding) * targetWidth/textW)),
which is at least targetWidth and exceeds it by the scaled padding. -/
theorem C1_scaled_width (ops : PILOps) (wm0 : Img) (bg : ℕ × ℕ)
    (s : WatermarkSettings)
    (hsp1 : 1 ≤ s.size_percent) (hsp2 : s.size_percent ≤ 100)
    (hwm : 1 ≤ wm0.width)
    (htw : 1 ≤ (measureGuard (ops.measureText s.text s.font_path s.font_size)).1) :
    (((ImageWatermarkRenderer.preSprite ops (some wm0) bg s).width : ℤ) =
        targetWidth bg.1 s.size_percent ∧
      (((ImageWatermarkRenderer.preSprite ops (some wm0) bg s).width : ℤ)
        - round ((bg.1 : ℚ) * ((s.size_percent : ℚ) / 100))).natAbs ≤ 1) ∧
    (((TextWatermarkRenderer.preSprite ops bg s).width : ℤ) =
        max 1 (pyInt
          ((((measureGuard (ops.measureText s.text s.font_path s.font_size)).1 : ℚ)
              + (padding : ℚ) * 2)
            * ((targetWidth bg.1 s.size_percent : ℚ)
              / ((measureGuard (ops.measureText s.text s.font_path s.font_size)).1 : ℚ)))) ∧
      targetWidth bg.1 s.size_percent ≤
        ((TextWatermarkRenderer.preSprite ops bg s).width : ℤ)) := by
  have htgt1 : 1 ≤ targetWidth bg.1 s.size_percent := le_max_left 1 _
  have hx0 : (0 : ℚ) ≤ (bg.1 : ℚ) * ((s.size_percent : ℚ) / 100) := by
    have hsp0 : (0 : ℚ) ≤ (s.size_percent : ℚ) := by
      exact_mod_cast (by omega : (0 : ℤ) ≤ s.size_percent)
    positivity
  have hwmq : (0 : ℚ) < (wm0.width : ℚ) := by
    exact_mod_cast (by omega : 0 < wm0.width)
  have hcancel : (wm0.width : ℚ) *
      ((targetWidth bg.1 s.size_percent : ℚ) / (wm0.width : ℚ)) =
      ((targetWidth bg.1 s.size_percent : ℤ) : ℚ) := by
    field_simp
  have himg : (ImageWatermarkRenderer.preSprite ops (some wm0) bg s).width
      = (targetWidth bg.1 s.size_percent).toNat := by
    show (ImageWatermarkRenderer.someSprite ops wm0 bg s).width = _
    rw [ImageWatermarkRenderer.someSprite_width, hcancel, pyInt_intCast,
      max_eq_right htgt1]
  have himgZ : ((ImageWatermarkRenderer.preSprite ops (some wm0) bg s).width : ℤ)
      = targetWidth bg.1 s.size_percent := by
    rw [himg]
    exact Int.toNat_of_nonneg (by omega)
  have htext : (TextWatermarkRenderer.preSprite ops bg s).width
      = (max 1 (pyInt
          ((((measureGuard (ops.measureText s.text s.font_path s.font_size)).1 : ℚ)
              + (padding : ℚ) * 2)
            * ((targetWidth bg.1 s.size_percent : ℚ)
              / ((measureGuard (ops.measureText s.text s.font_path s.font_size)).1 : ℚ))))).toNat := rfl
  have hge : targetWidth bg.1 s.size_percent ≤
      max 1 (pyInt
        ((((measureGuard (ops.measureText s.text s.font_path s.font_size)).1 : ℚ)
            + (padding : ℚ) * 2)
          * ((targetWidth bg.1 s.size_percent : ℚ)
            / ((measureGuard (ops.measureText s.text s.font_path s.font_size)).1 : ℚ)))) :=
    scale_image_width_ge _ _ htgt1 htw padding
  refine ⟨⟨himgZ, ?_⟩, ?_, ?_⟩
  · rw [himgZ]
    exact max1_floor_round_close _ hx0
  · rw [htext]
    exact Int.toNat_of_nonneg (by omega)
  · rw [htext, Int.toNat_of_nonneg (by omega)]
    exact hge

/-- C1 witness at background (1000, 800), the default settings, the
sample 50 x 40 asset and the sample measurement. -/
theorem C1_scaled_width_witness :
    ((ImageWatermarkRenderer.preSprite sampleOps (some sampleWm) (1000, 800)
        defaultSettings).width : ℤ) =
      targetWidth 1000 defaultSettings.size_percent ∧
    targetWidth 1000 defaultSettings.size_percent ≤
      ((TextWatermarkRenderer.preSprite sampleOps (1000, 800) defaultSettings).width : ℤ) :=
  ⟨(C1_scaled_width sampleOps sampleWm (1000, 800) defaultSettings
      (by norm_num [defaultSettings]) (by norm_num [defaultSettings])
      (by norm_num [sampleWm]) (by norm_num [sampleOps, measureGuard])).1.1,
   (C1_scaled_width sampleOps sampleWm (1000, 800) defaultSettings
      (by norm_num [defaultSettings]) (by norm_num [defaultSettings])
      (by norm_num [sampleWm]) (by norm_num [sampleOps, measureGuard])).2.2⟩

/-! ### C9 -/

theorem Img.alphaLE_refl (A : Img) : A.alphaLE A :=
  ⟨rfl, rfl, fun _ _ => ⟨rfl, rfl, rfl, le_refl _⟩⟩

/-- The drawn text alpha is monotone in the opacity percentage. -/
theorem textAlpha_mono (a : ℕ) (o1 o2 : ℤ) (h0 : 0 ≤ o1) (h12 : o1 ≤ o2) :
    textAlpha a o1 ≤ textAlpha a o2 := by
  unfold textAlpha
  have hq1 : (0 : ℚ) ≤ (a : ℚ) * ((o1 : ℚ) / 100) := by
    have h : (0 : ℚ) ≤ (o1 : ℚ) := by exact_mod_cast h0
    positivity
  have hq2 : (0 : ℚ) ≤ (a : ℚ) * ((o2 : ℚ) / 100) := by
    have h : (0 : ℚ) ≤ (o2 : ℚ) := by exact_mod_cast le_trans h0 h12
    positivity
  rw [pyInt_of_nonneg _ hq1, pyInt_of_nonneg _ hq2]
  apply Int.floor_le_floor
  have hc : (o1 : ℚ) ≤ (o2 : ℚ) := by exact_mod_cast h12
  have ha : (0 : ℚ) ≤ (a : ℚ) := by positivity
  apply mul_le_mul_of_nonneg_left _ ha
  linarith

/-- The alpha-band brightness scaling is monotone in the opacity. -/
theorem enhanceAlpha_mono (p : ℕ) (o1 o2 : ℤ) (h12 : o1 ≤ o2) :
    enhanceAlpha p o1 ≤ enhanceAlpha p o2 := by
  unfold enhanceAlpha
  apply Int.toNat_le_toNat
  apply Int.floor_le_floor
  have hc : (o1 : ℚ) ≤ (o2 : ℚ) := by exact_mod_cast h12
  have hp : (0 : ℚ) ≤ (p : ℚ) := by positivity
  apply mul_le_mul_of_nonneg_left _ hp
  linarith

/-- Scaling an alpha value by an opacity of at most 100 percent never
increases it. -/
theorem enhanceAlpha_le (p : ℕ) (o : ℤ) (h100 : o ≤ 100) :
    enhanceAlpha p o ≤ p := by
  unfold enhanceAlpha
  have h1 : (p : ℚ) * ((o : ℚ) / 100) ≤ ((p : ℕ) : ℚ) := by
    have hc : (o : ℚ) ≤ 100 := by exact_mod_cast h100
    have hp : (0 : ℚ) ≤ (p : ℚ) := by positivity
    calc (p : ℚ) * ((o : ℚ) / 100) ≤ (p : ℚ) * 1 := by
          apply mul_le_mul_of_nonneg_left _ hp
          linarith
      _ = ((p : ℕ) : ℚ) := mul_one _
  have h2 : ⌊(p : ℚ) * ((o : ℚ) / 100)⌋ ≤ ((p : ℕ) : ℤ) := by
    calc ⌊(p : ℚ) * ((o : ℚ) / 100)⌋ ≤ ⌊((p : ℕ) : ℚ)⌋ := Int.floor_le_floor h1
      _ = ((p : ℕ) : ℤ) := Int.floor_natCast p
  calc (⌊(p : ℚ) * ((o : ℚ) / 100)⌋).toNat ≤ (((p : ℕ) : ℤ)).toNat :=
        Int.toNat_le_toNat h2
    _ = p := Int.toNat_natCast p

/-- The rasterized text canvas is alpha-monotone in the opacity, with
equal sizes and equal color channels. -/
theorem TextWatermarkRenderer.textImage_opacity_mono (ops : PILOps)
    (s : WatermarkSettings) (tw th : ℤ) (o1 o2 : ℤ)
    (h0 : 0 ≤ o1) (h12 : o1 ≤ o2) :
    Img.alphaLE (TextWatermarkRenderer.textImage ops { s with opacity := o1 } tw th)
      (TextWatermarkRenderer.textImage ops { s with opacity := o2 } tw th) := by
  refine ⟨rfl, rfl, fun x y => ?_⟩
  unfold TextWatermarkRenderer.textImage
  dsimp only
  split
  · exact ⟨rfl, rfl, rfl,
      Nat.div_le_div_right (Nat.mul_le_mul_right _
        (Int.toNat_le_toNat (textAlpha_mono _ _ _ h0 h12)))⟩
  · exact ⟨rfl, rfl, rfl, le_refl _⟩

/-- The pre-rotation text sprite is alpha-monotone in the opacity,
provided the external resampler preserves pointwise alpha order. -/
theorem TextWatermarkRenderer.preSprite_opacity_mono (ops : PILOps) (bg : ℕ × ℕ)
    (s : WatermarkSettings) (o1 o2 : ℤ) (h0 : 0 ≤ o1) (h12 : o1 ≤ o2)
    (Hres : ∀ A B w h, Img.alphaLE A B →
      Img.alphaLE (Img.resize ops A w h) (Img.resize ops B w h)) :
    Img.alphaLE (TextWatermarkRenderer.preSprite ops bg { s with opacity := o1 })
      (TextWatermarkRenderer.preSprite ops bg { s with opacity := o2 }) :=
  Hres _ _ _ _ (TextWatermarkRenderer.textImage_opacity_mono ops s _ _ o1 o2 h0 h12)

/-- The pre-rotation image sprite is alpha-monotone in the opacity. -/
theorem ImageWatermarkRenderer.someSprite_opacity_mono (ops : PILOps) (wm0 : Img)
    (bg : ℕ × ℕ) (s : WatermarkSettings) (o1 o2 : ℤ)
    (h12 : o1 ≤ o2) (h100 : o2 ≤ 100) :
    Img.alphaLE (ImageWatermarkRenderer.someSprite ops wm0 bg { s with opacity := o1 })
      (ImageWatermarkRenderer.someSprite ops wm0 bg { s with opacity := o2 }) := by
  unfold ImageWatermarkRenderer.someSprite
  dsimp only
  by_cases h1c : o1 < 100
  · by_cases h2c : o2 < 100
    · rw [if_pos h1c, if_pos h2c]
      exact ⟨rfl, rfl, fun x y => ⟨rfl, rfl, rfl, enhanceAlpha_mono _ _ _ h12⟩⟩
    · rw [if_pos h1c, if_neg h2c]
      exact ⟨rfl, rfl, fun x y =>
        ⟨rfl, rfl, rfl, enhanceAlpha_le _ _ (by omega)⟩⟩
  · have h2c : ¬ o2 < 100 := by omega
    rw [if_neg h1c, if_neg h2c]
    exact Img.alphaLE_refl _

/-- C9: for fixed settings other than opacity, the per-pixel alpha of
the rendered sprite is monotone in opacityPercent, for both the text
renderer (alpha scaled before drawing) and the image renderer (alpha
band scaled pointwise after resizing); the external resampling
primitives are assumed to preserve pointwise alpha order between
images that differ only in alpha. -/
theorem C9_opacity_monotone (ops : PILOps) (wm0 : Img) (bg : ℕ × ℕ)
    (s : WatermarkSettings) (o1 o2 : ℤ)
    (h0 : 0 ≤ o1) (h12 : o1 ≤ o2) (h100 : o2 ≤ 100)
    (Hres : ∀ A B w h, Img.alphaLE A B →
      Img.alphaLE (Img.resize ops A w h) (Img.resize ops B w h))
    (Hrot : ∀ A B d, Img.alphaLE A B →
      Img.alphaLE (ops.rotate A d) (ops.rotate B d)) :
    Img.alphaLE (TextWatermarkRenderer.render ops bg { s with opacity := o1 })
      (TextWatermarkRenderer.render ops bg { s with opacity := o2 }) ∧
    Img.alphaLE (ImageWatermarkRenderer.render ops (some wm0) bg { s with opacity := o1 })
      (ImageWatermarkRenderer.render ops (some wm0) bg { s with opacity := o2 }) := by
  have hpre := TextWatermarkRenderer.preSprite_opacity_mono ops bg s o1 o2 h0 h12 Hres
  have hsome := ImageWatermarkRenderer.someSprite_opacity_mono ops wm0 bg s o1 o2 h12 h100
  constructor
  · show Img.alphaLE
      (if s.rotation % 360 ≠ 0 then
          ops.rotate (TextWatermarkRenderer.preSprite ops bg { s with opacity := o1 }) s.rotation
        else TextWatermarkRenderer.preSprite ops bg { s with opacity := o1 })
      (if s.rotation % 360 ≠ 0 then
          ops.rotate (TextWatermarkRenderer.preSprite ops bg { s with opacity := o2 }) s.rotation
        else TextWatermarkRenderer.preSprite ops bg { s with opacity := o2 })
    split_ifs with hc
    · exact Hrot _ _ _ hpre
    · exact hpre
  · show Img.alphaLE
      (if s.rotation % 360 ≠ 0 then
          ops.rotate (ImageWatermarkRenderer.someSprite ops wm0 bg { s with opacity := o1 }) s.rotation
        else ImageWatermarkRenderer.someSprite ops wm0 bg { s with opacity := o1 })
      (if s.rotation % 360 ≠ 0 then
          ops.rotate (ImageWatermarkRenderer.someSprite ops wm0 bg { s with opacity := o2 }) s.rotation
        else ImageWatermarkRenderer.someSprite ops wm0 bg { s with opacity := o2 })
    split_ifs with hc
    · exact Hrot _ _ _ hsome
    · exact hsome

/-- The sample pointwise resampler preserves pointwise alpha order. -/
theorem sampleOps_resize_mono : ∀ A B w h, Img.alphaLE A B →
    Img.alphaLE (Img.resize sampleOps A w h) (Img.resize sampleOps B w h) :=
  fun A B w h hAB => ⟨rfl, rfl, fun x y => hAB.2.2 x y⟩

/-- The sample identity rotation preserves pointwise alpha order. -/
theorem sampleOps_rotate_mono : ∀ A B d, Img.alphaLE A B →
    Img.alphaLE (sampleOps.rotate A d) (sampleOps.rotate B d) :=
  fun _ _ _ h => h

/-- C9 witness at opacities 30 and 80 over the sample instantiation of
the external operations. -/
theorem C9_opacity_monotone_witness :
    Img.alphaLE (TextWatermarkRenderer.render sampleOps (1000, 800)
        { defaultSettings with opacity := 30 })
      (TextWatermarkRenderer.render sampleOps (1000, 800)
        { defaultSettings with opacity := 80 }) ∧
    Img.alphaLE (ImageWatermarkRenderer.render sampleOps (some sampleWm) (1000, 800)
        { defaultSettings with opacity := 30 })
      (ImageWatermarkRenderer.render sampleOps (some sampleWm) (1000, 800)
        { defaultSettings with opacity := 80 }) :=
  C9_opacity_monotone sampleOps sampleWm (1000, 800) defaultSettings 30 80
    (by decide) (by decide) (by decide) sampleOps_resize_mono sampleOps_rotate_mono
